import Mathlib

/-
Verification of the natural-language specification of the zenoh_ros2_sdk
repository against its Python source.  Strings are modelled as lists of
characters (Python str), bytes as lists of naturals below 256, and
stateful code as explicit state passing.  Each definition is a shallow
embedding of the correspondingly named function of the source; the file
and line of the source are given in the doc comment.
-/

namespace ZenohRos2

/-- Character list of a string literal (Python str values). -/
def toL (s : String) : List Char := s.data

/-- Python str.replace with single-character arguments: replace every
occurrence of the character a by the character b. -/
def replaceChar (a b : Char) (s : List Char) : List Char :=
  s.map fun c => if c = a then b else c

/-- Embedding of mangle_name (src/zenoh_ros2_sdk/utils.py, lines 28-32):
an empty name or the single slash becomes a percent sign, any other name
has every slash replaced by a percent sign. -/
def mangle_name (s : List Char) : List Char :=
  if s = [] ∨ s = toL "/" then toL "%" else replaceChar '/' '%' s

/-- Python str.split(sep) with a single-character separator. -/
def splitChar (sep : Char) : List Char → List (List Char)
  | [] => [[]]
  | c :: cs =>
    let r := splitChar sep cs
    if c = sep then [] :: r else (c :: r.headI) :: r.tail

/-- Python message_name[0].upper() + message_name[1:] if message_name else
the empty string (utils.py line 13). -/
def capitalizeFirst : List Char → List Char
  | [] => []
  | c :: cs => c.toUpper :: cs

/-- Python ros2_type.replace of a slash by two colons (utils.py line 15). -/
def slashToDoubleColon (s : List Char) : List Char :=
  (s.map fun c => if c = '/' then toL "::" else [c]).flatten

/-- Embedding of ros2_to_dds_type (src/zenoh_ros2_sdk/utils.py, lines 6-15).
When the name splits on slashes into exactly three parts the middle part is
discarded and the literal text colon-colon msg colon-colon is emitted; the
message name gets its first letter upper-cased. -/
def ros2_to_dds_type (s : List Char) : List Char :=
  match splitChar '/' s with
  | [ns, _kind, name] => ns ++ toL "::msg::dds_::" ++ capitalizeFirst name ++ toL "_"
  | _ => slashToDoubleColon s

/-- The zeroed placeholder hash returned by utils.get_type_hash for every
type name outside its two-entry table (utils.py line 25). -/
def zero_type_hash : List Char :=
  toL "RIHS01_0000000000000000000000000000000000000000000000000000000000000000"

/-- The common_hashes dictionary of utils.get_type_hash
(src/zenoh_ros2_sdk/utils.py, lines 21-24). -/
def common_hashes : List (List Char × List Char) :=
  [(toL "std_msgs/msg/String",
    toL "RIHS01_df668c740482bbd48fb39d76a70dfd4bd59db1288021743503259e948f6b1a18"),
   (toL "std_msgs/msg/Int32", zero_type_hash)]

/-- Embedding of get_type_hash (src/zenoh_ros2_sdk/utils.py, lines 18-25):
Python dict.get with the zeroed placeholder as the default value. -/
def get_type_hash (t : List Char) : List Char :=
  (common_hashes.lookup t).getD zero_type_hash

/-- Little-endian encoding of a 64-bit integer, one byte per position:
Python struct.pack of an unsigned 8-byte value in little-endian order. -/
def le64 (n : Nat) : List Nat := (List.range 8).map fun i => n / 256 ^ i % 256

/-- Embedding of ROS2Publisher._create_attachment
(src/zenoh_ros2_sdk/publisher.py, lines 146-152): little-endian u64
sequence number, little-endian u64 timestamp, one byte holding the GID
length, then the GID bytes.  generate_gid
(src/zenoh_ros2_sdk/session.py, lines 76-80) always supplies a 16-byte
GID. -/
def create_attachment (seq ts : Nat) (gid : List Nat) : List Nat :=
  le64 seq ++ le64 ts ++ [gid.length] ++ gid

/-- The state a ZenohSession instance carries that the singleton claim
depends on (src/zenoh_ros2_sdk/session.py, lines 16-31). -/
structure ZSessionInst where
  router_ip : List Char
  router_port : Nat
deriving DecidableEq

/-- Embedding of ZenohSession.get_instance (src/zenoh_ros2_sdk/session.py,
lines 33-40) as an atomic transition on the class-level instance cell: the
double-checked locking makes each call run serialized under the class
lock, so a call either returns the stored instance or installs a fresh
one built from its arguments. -/
def get_instance (ip : List Char) (port : Nat) (st : Option ZSessionInst) :
    ZSessionInst × Option ZSessionInst :=
  match st with
  | some i => (i, some i)
  | none => (⟨ip, port⟩, some ⟨ip, port⟩)

/-- Embedding of ZenohSession.get_next_node_id
(src/zenoh_ros2_sdk/session.py, lines 62-67): under the session lock the
counter value is returned and the counter incremented. -/
def get_next_node_id (c : Nat) : Nat × Nat := (c, c + 1)

/-- Embedding of ZenohSession.get_next_entity_id
(src/zenoh_ros2_sdk/session.py, lines 69-74); same shape as the node
counter, on its own counter cell. -/
def get_next_entity_id (c : Nat) : Nat × Nat := (c, c + 1)

/-- Results of n successive lock-serialized calls of get_next_node_id
starting from counter value c. -/
def node_id_sequence : Nat → Nat → List Nat
  | 0, _ => []
  | n + 1, c => (get_next_node_id c).1 :: node_id_sequence n (get_next_node_id c).2

/-- Results of n successive lock-serialized calls of get_next_entity_id
starting from counter value c. -/
def entity_id_sequence : Nat → Nat → List Nat
  | 0, _ => []
  | n + 1, c => (get_next_entity_id c).1 :: entity_id_sequence n (get_next_entity_id c).2

/-- The two type maps a ZenohSession holds: the _registered_types
dictionary and the rosbags store.types mapping
(src/zenoh_ros2_sdk/session.py, lines 22-23).  Both are modelled as
association lists from type name to the registered definition text, the
definition text standing for the record class rosbags materializes from
it. -/
structure SessionTypes where
  registered : List (List Char × List Char)
  store : List (List Char × List Char)
deriving DecidableEq

/-- Result of register_message_type: ok carries the Python return value
(an Option, since the registry branches use dict.get) and the session
state afterwards; error models a raised exception with its message. -/
inductive RegResult where
  | ok (v : Option (List Char)) (st : SessionTypes)
  | error (msg : List Char)
deriving DecidableEq

/-- Python: not msg_definition.strip() — true when the definition text is
empty or all whitespace. -/
def is_blank (d : List Char) : Bool := d.all Char.isWhitespace

/-- Embedding of ZenohSession.register_message_type
(src/zenoh_ros2_sdk/session.py, lines 42-60).  registry_loaded models
registry.is_loaded; registry_defn models registry.load_message_type
together with the definition text it registers on success (none models a
load failure).  get_types_from_msg plus store.register is modelled as
inserting the definition under the name into both maps.  The final
Python return uses bracket indexing, so a missing store entry is a
KeyError; the registry branches use dict.get and so return an Option. -/
def register_message_type (registry_loaded : List Char → Bool)
    (registry_defn : List Char → Option (List Char))
    (d n : List Char) (st : SessionTypes) : RegResult :=
  if (st.registered.lookup n).isNone then
    if is_blank d then
      if registry_loaded n then .ok (st.store.lookup n) st
      else
        match registry_defn n with
        | some ld =>
          let st2 : SessionTypes := ⟨(n, ld) :: st.registered, (n, ld) :: st.store⟩
          .ok (st2.store.lookup n) st2
        | none => .error (toL "Message type not found in registry and no definition provided")
    else
      let st2 : SessionTypes := ⟨(n, d) :: st.registered, (n, d) :: st.store⟩
      match st2.store.lookup n with
      | some v => .ok (some v) st2
      | none => .error (toL "KeyError")
  else
    match st.store.lookup n with
    | some v => .ok (some v) st
    | none => .error (toL "KeyError")

/- ===== helper lemmas ===== -/

theorem replaceChar_back (s : List Char) (h : '%' ∉ s) :
    replaceChar '%' '/' (replaceChar '/' '%' s) = s := by
  induction s with
  | nil => rfl
  | cons c cs ih =>
    have hc : c ≠ '%' := fun e => h (e ▸ List.mem_cons_self c cs)
    have hcs : '%' ∉ cs := fun m => h (List.mem_cons_of_mem _ m)
    by_cases hsl : c = '/'
    · subst hsl
      simpa [replaceChar] using ih hcs
    · simpa [replaceChar, hsl, hc] using ih hcs

theorem splitChar_no_sep (sep : Char) (s : List Char) (h : sep ∉ s) :
    splitChar sep s = [s] := by
  induction s with
  | nil => rfl
  | cons c cs ih =>
    have hc : c ≠ sep := fun e => h (e ▸ List.mem_cons_self c cs)
    have hcs : sep ∉ cs := fun m => h (List.mem_cons_of_mem _ m)
    simp [splitChar, hc, ih hcs]

theorem splitChar_append (sep : Char) (a b : List Char) (ha : sep ∉ a) :
    splitChar sep (a ++ sep :: b) = a :: splitChar sep b := by
  induction a with
  | nil => simp [splitChar]
  | cons c cs ih =>
    have hc : c ≠ sep := fun e => ha (e ▸ List.mem_cons_self c cs)
    have hcs : sep ∉ cs := fun m => ha (List.mem_cons_of_mem _ m)
    simp [splitChar, hc, ih hcs]

theorem capitalizeFirst_of_upper (c : Char) (cs : List Char) (h : c.isUpper) :
    capitalizeFirst (c :: cs) = c :: cs := by
  have hu : c.toUpper = c := by
    simp [Char.isUpper] at h
    have h90 : c.val.toNat ≤ 90 := h.2
    simp [Char.toUpper]
    intro h97 _
    exact absurd (Nat.le_trans h97 h90) (by decide)
  simp [capitalizeFirst, hu]

/- ===== C4 ===== -/

/-- C4: mangle_name maps the empty name and the single slash to a percent
sign, replaces every slash by a percent sign otherwise, and for every
non-root name without a percent character the inverse replacement (percent
back to slash) recovers the original name. -/
theorem mangle_name_ok :
    mangle_name (toL "") = toL "%" ∧
    mangle_name (toL "/") = toL "%" ∧
    mangle_name (toL "/a/b") = toL "%a%b" ∧
    ∀ s : List Char, s ≠ [] → s ≠ toL "/" → '%' ∉ s →
      replaceChar '%' '/' (mangle_name s) = s := by
  refine ⟨by decide, by decide, by decide, ?_⟩
  intro s h1 h2 h3
  rw [mangle_name, if_neg (by simp [h1, h2])]
  exact replaceChar_back s h3

/-- Witness for C4 at the concrete name of the claim. -/
theorem mangle_name_ok_witness :
    replaceChar '%' '/' (mangle_name (toL "/a/b")) = toL "/a/b" :=
  mangle_name_ok.2.2.2 (toL "/a/b") (by decide) (by decide) (by decide)

/- ===== C2 ===== -/

/-- C2 counterexample: on a service type name the code emits the literal
msg kind, not the srv kind the claim requires, so the kind part is not
preserved. -/
theorem ros2_to_dds_type_srv_counterexample :
    ros2_to_dds_type (toL "example_interfaces/srv/AddTwoInts") =
      toL "example_interfaces::msg::dds_::AddTwoInts_" ∧
    toL "example_interfaces::msg::dds_::AddTwoInts_" ≠
      toL "example_interfaces::srv::dds_::AddTwoInts_" := by
  exact ⟨by decide, by decide⟩

/-- C2 amended: for every three-part name the result is the package, the
literal msg kind (whatever the input kind part was), dds underscore, and
the message name with its first letter capitalized; a name whose first
letter is already upper case is unchanged. -/
theorem ros2_to_dds_type_amended_ok :
    (∀ pkg kind name : List Char, '/' ∉ pkg → '/' ∉ kind → '/' ∉ name →
      ros2_to_dds_type (pkg ++ '/' :: kind ++ '/' :: name) =
        pkg ++ toL "::msg::dds_::" ++ capitalizeFirst name ++ toL "_") ∧
    (∀ (c : Char) (cs : List Char), c.isUpper →
      capitalizeFirst (c :: cs) = c :: cs) := by
  constructor
  · intro pkg kind name hp hk hn
    have hsplit : splitChar '/' (pkg ++ '/' :: kind ++ '/' :: name) = [pkg, kind, name] := by
      simp only [List.cons_append, List.append_assoc]
      rw [splitChar_append '/' pkg _ hp, splitChar_append '/' kind _ hk,
        splitChar_no_sep '/' name hn]
    simp only [ros2_to_dds_type, hsplit]
  · exact capitalizeFirst_of_upper

/-- Witness for C2 at a concrete service type name. -/
theorem ros2_to_dds_type_amended_witness :
    ros2_to_dds_type (toL "example_interfaces" ++ '/' :: toL "srv" ++ '/' :: toL "addTwoInts") =
      toL "example_interfaces" ++ toL "::msg::dds_::" ++
        capitalizeFirst (toL "addTwoInts") ++ toL "_" ∧
    capitalizeFirst ('I' :: toL "nt32") = 'I' :: toL "nt32" :=
  ⟨ros2_to_dds_type_amended_ok.1 _ _ _ (by decide) (by decide) (by decide),
   ros2_to_dds_type_amended_ok.2 'I' (toL "nt32") (by decide)⟩

/- ===== C1 ===== -/

/-- C1: utils.get_type_hash never raises on an unknown type name; it
returns the zeroed placeholder hash, both at the input of the repository
test that demands a raise and at an arbitrary common type outside the
table. -/
theorem get_type_hash_unknown_is_placeholder :
    get_type_hash (toL "unknown/msg/Type") = zero_type_hash ∧
    get_type_hash (toL "geometry_msgs/msg/Twist") = zero_type_hash := by
  exact ⟨by decide, by decide⟩

/- ===== C3 ===== -/

theorem le64_length (n : Nat) : (le64 n).length = 8 := by simp [le64]

/-- C3 counterexample: with the 16-byte GID the attachment is 33 bytes,
while the claim states the total is 18 + N = 34 bytes. -/
theorem create_attachment_length_counterexample :
    (create_attachment 0 0 (List.replicate 16 0)).length = 33 ∧ (33 : Nat) ≠ 18 + 16 :=
  ⟨by decide, by decide⟩

/-- C3 amended: the attachment is the little-endian u64 sequence number,
the little-endian u64 timestamp, the u8 GID length (always 16), and the
GID bytes — 17 + N bytes in total, which is 33 with the 16-byte GID. -/
theorem create_attachment_layout (seq ts : Nat) (gid : List Nat) (h : gid.length = 16) :
    create_attachment seq ts gid = le64 seq ++ le64 ts ++ [16] ++ gid ∧
    (create_attachment seq ts gid).length = 17 + gid.length ∧
    (create_attachment seq ts gid).length = 33 ∧
    (create_attachment seq ts gid).take 8 = le64 seq ∧
    ((create_attachment seq ts gid).drop 8).take 8 = le64 ts ∧
    (create_attachment seq ts gid).drop 16 = gid.length :: gid := by
  have hbody : create_attachment seq ts gid =
      le64 seq ++ (le64 ts ++ ([gid.length] ++ gid)) := by
    simp [create_attachment]
  refine ⟨by simp [create_attachment, h], ?_, ?_, ?_, ?_, ?_⟩
  · simp [create_attachment, le64_length]
    omega
  · simp [create_attachment, le64_length, h]
  · rw [hbody, List.take_left' (le64_length seq)]
  · rw [hbody, List.drop_left' (le64_length seq), List.take_left' (le64_length ts)]
  · have hsplit16 : List.drop 16 (create_attachment seq ts gid) =
        List.drop 8 (List.drop 8 (create_attachment seq ts gid)) := by
      rw [List.drop_drop]
    rw [hsplit16, hbody, List.drop_left' (le64_length seq),
      List.drop_left' (le64_length ts), List.singleton_append]

/-- Witness for C3 amended at a concrete sequence number, timestamp and
16-byte GID. -/
theorem create_attachment_layout_witness :
    (create_attachment 1 2 (List.replicate 16 7)).length = 33 ∧
    (create_attachment 1 2 (List.replicate 16 7)).drop 16 = 16 :: List.replicate 16 7 :=
  ⟨(create_attachment_layout 1 2 _ (by decide)).2.2.1,
   by
    have h := (create_attachment_layout 1 2 (List.replicate 16 7) (by decide)).2.2.2.2.2
    simpa using h⟩

/- ===== C6 ===== -/

theorem node_id_sequence_eq_range' (n c : Nat) :
    node_id_sequence n c = List.range' c n := by
  induction n generalizing c with
  | zero => rfl
  | succ m ih => simp [node_id_sequence, get_next_node_id, List.range', ih]

theorem entity_id_sequence_eq_range' (n c : Nat) :
    entity_id_sequence n c = List.range' c n := by
  induction n generalizing c with
  | zero => rfl
  | succ m ih => simp [entity_id_sequence, get_next_entity_id, List.range', ih]

/-- C6: with each call an atomic lock-serialized transition, a second
get_instance call after a first one returns the very instance the first
call returned and leaves the cell unchanged; and n successive calls of
either counter on a fresh session return 0, 1, ..., n-1 — strictly
monotonically increasing from 0. -/
theorem session_singleton_and_counters :
    (∀ (ip : List Char) (port : Nat) (st : Option ZSessionInst),
      (get_instance ip port (get_instance ip port st).2).1 = (get_instance ip port st).1 ∧
      (get_instance ip port (get_instance ip port st).2).2 = (get_instance ip port st).2) ∧
    (∀ n : Nat, node_id_sequence n 0 = List.range n) ∧
    (∀ n : Nat, entity_id_sequence n 0 = List.range n) ∧
    (∀ n : Nat, List.Chain' (· < ·) (node_id_sequence n 0)) ∧
    (∀ n : Nat, List.Chain' (· < ·) (entity_id_sequence n 0)) := by
  refine ⟨fun ip port st => ?_, fun n => ?_, fun n => ?_, fun n => ?_, fun n => ?_⟩
  · cases st <;> simp [get_instance]
  · rw [node_id_sequence_eq_range', List.range_eq_range']
  · rw [entity_id_sequence_eq_range', List.range_eq_range']
  · rw [node_id_sequence_eq_range', ← List.range_eq_range']
    exact (List.pairwise_lt_range n).chain'
  · rw [entity_id_sequence_eq_range', ← List.range_eq_range']
    exact (List.pairwise_lt_range n).chain'

/- ===== C5 ===== -/

/-- A session state with one type already registered. -/
def stA : SessionTypes :=
  ⟨[(toL "pkg/msg/T", toL "int32 a")], [(toL "pkg/msg/T", toL "int32 a")]⟩

/-- C5 counterexample: re-registering the name with a different
(conflicting) definition is not an error — it silently returns the stored
type and leaves the state untouched. -/
theorem register_conflicting_counterexample :
    register_message_type (fun _ => false) (fun _ => none)
        (toL "int64 b") (toL "pkg/msg/T") stA =
      .ok (some (toL "int32 a")) stA ∧
    toL "int64 b" ≠ toL "int32 a" :=
  ⟨by decide, by decide⟩

/-- C5 amended: once a name is registered, every further registration —
with an identical or with a conflicting definition alike — is a no-op that
returns the stored type; the code never raises on a conflicting
definition. -/
theorem register_message_type_amended (registry_loaded : List Char → Bool)
    (registry_defn : List Char → Option (List Char))
    (d n v : List Char) (st : SessionTypes)
    (hreg : (st.registered.lookup n).isSome)
    (hstore : st.store.lookup n = some v) :
    register_message_type registry_loaded registry_defn d n st = .ok (some v) st := by
  obtain ⟨w, hw⟩ := Option.isSome_iff_exists.mp hreg
  simp [register_message_type, hw, hstore]

/-- Witness for C5 amended: the identical-definition re-registration on
the concrete state. -/
theorem register_message_type_amended_witness :
    register_message_type (fun _ => false) (fun _ => none)
        (toL "int32 a") (toL "pkg/msg/T") stA =
      .ok (some (toL "int32 a")) stA :=
  register_message_type_amended _ _ _ _ _ _ (by decide) (by decide)

/- ===== subscriber sample pipeline (C10, C7) ===== -/

/-- The shapes a Zenoh sample payload can take, following the branch
structure of _process_sample (src/zenoh_ros2_sdk/subscriber.py, lines
185-209): an object with a to_bytes method (whose result may or may not
be bytes-like), a bytes or bytearray value, a memoryview, or anything
else. -/
inductive PayloadVal where
  | withToBytes (ret : Option (List Nat))
  | rawBytes (b : List Nat)
  | memview (b : List Nat)
  | other
deriving DecidableEq

/-- A Zenoh sample as _process_sample sees it. -/
structure Sample where
  payload : Option PayloadVal
deriving DecidableEq

/-- The byte-extraction part of _process_sample (subscriber.py, lines
185-209); an error value models a raised exception. -/
def extract_payload_bytes (s : Sample) : Except (List Char) (List Nat) :=
  match s.payload with
  | none => .error (toL "Zenoh sample has no payload")
  | some (.withToBytes none) =>
      .error (toL "Zenoh payload to_bytes returned a non-bytes value")
  | some (.withToBytes (some b)) => .ok b
  | some (.rawBytes b) => .ok b
  | some (.memview b) => .ok b
  | some .other => .error (toL "Unsupported Zenoh payload type")

/-- The body of the try block of _process_sample (subscriber.py, lines
184-215): extract bytes, reject an empty payload, deserialize, call the
user callback.  An error value models an exception raised anywhere in
the block, the user callback included. -/
def process_sample_body {Msg : Type} (deser : List Nat → Except (List Char) Msg)
    (cb : Msg → Except (List Char) Unit) (s : Sample) : Except (List Char) Unit :=
  match extract_payload_bytes s with
  | .error e => .error e
  | .ok b =>
    if b = [] then .error (toL "Received empty payload")
    else
      match deser b with
      | .error e => .error e
      | .ok m => cb m

/-- Outcome of one _process_sample call: either the callback ran to
completion, or an exception was caught by the blanket except clause and
logged. -/
inductive SampleOutcome where
  | delivered
  | loggedError (msg : List Char)
deriving DecidableEq

/-- The log line of subscriber.py line 217. -/
def sample_log_msg (topic e : List Char) : List Char :=
  toL "Error deserializing message on topic " ++ topic ++ toL ": " ++ e

/-- Embedding of _process_sample (subscriber.py, lines 182-217): the
whole body runs inside try/except Exception, so every exception becomes
a logged error and none escapes to the Zenoh IO thread. -/
def process_sample {Msg : Type} (topic : List Char)
    (deser : List Nat → Except (List Char) Msg)
    (cb : Msg → Except (List Char) Unit) (s : Sample) : SampleOutcome :=
  match process_sample_body deser cb s with
  | .ok _ => .delivered
  | .error e => .loggedError (sample_log_msg topic e)

/-- Embedding of _listener (subscriber.py, lines 178-180): it forwards
the sample to _process_sample. -/
def subscriber_listener {Msg : Type} (topic : List Char)
    (deser : List Nat → Except (List Char) Msg)
    (cb : Msg → Except (List Char) Unit) (s : Sample) : SampleOutcome :=
  process_sample topic deser cb s

/- ===== transient-local discovery (C7) ===== -/

/-- Python str.lstrip with the slash argument: drop every leading
slash. -/
def lstrip_slash (s : List Char) : List Char := s.dropWhile (· = '/')

/-- Decimal rendering of an integer, as a Python f-string does. -/
def natChars (n : Nat) : List Char := (toString n).data

/-- Modelled from the spec: topic_keyexpr of the keyexpr module, which is
imported by subscriber.py but is not under src/; per the spec the data
key expression is domain, topic without its leading slash, DDS type name
and type hash, slash-separated.  The publisher builds the same string
inline (publisher.py, line 109). -/
def topic_keyexpr (domain : Nat) (topic dds ty : List Char) : List Char :=
  natChars domain ++ toL "/" ++ lstrip_slash topic ++ toL "/" ++ dds ++ toL "/" ++ ty

/-- Embedding of the liveliness pattern of _discover_publishers
(subscriber.py, lines 263-266), built from its two f-string pieces. -/
def discover_publishers_pattern (domain : Nat) (topic dds ty : List Char) : List Char :=
  toL "@ros2_lv/" ++ natChars domain ++ toL "/*/*/*/MP/*/*/*" ++
    (toL "/%" ++ lstrip_slash topic ++ toL "/" ++ dds ++ toL "/" ++ ty ++ toL "/*")

/-- The pattern the claim states, written as one piece: at-ros2_lv,
domain, three wildcards, MP, three wildcards, percent-prefixed topic,
DDS type, type hash, wildcard. -/
def spec_discovery_pattern (domain : Nat) (topic dds ty : List Char) : List Char :=
  toL "@ros2_lv/" ++ natChars domain ++ toL "/*/*/*/MP/*/*/*/%" ++
    lstrip_slash topic ++ toL "/" ++ dds ++ toL "/" ++ ty ++ toL "/*"

/-- The liveliness get timeout of _discover_publishers (subscriber.py,
line 269): 2.0 seconds. -/
def discovery_timeout_seconds : Nat := 2

/-- The data get timeout of _query_historical_data (subscriber.py, line
241): 2.0 seconds. -/
def history_query_timeout_seconds : Nat := 2

/-- Embedding of the zenoh_id extraction of _discover_publishers
(subscriber.py, lines 272-274): split the replying key expression on
slashes and, when more than two components exist, take the component at
index 2. -/
def extract_zenoh_id (ke : List Char) : Option (List Char) :=
  match splitChar '/' ke with
  | _ :: _ :: z :: _ => some z
  | _ => none

/-- Embedding of the selector of _query_historical_data (subscriber.py,
line 238): the data key expression, the advanced-publisher cache suffix
for one zenoh_id, and the anyke and max parameters. -/
def history_selector (keyexpr zid : List Char) (maxSamples : Nat) : List Char :=
  keyexpr ++ toL "/@adv/pub/" ++ zid ++ toL "/**?_anyke;_max=" ++ natChars maxSamples

/-- A reply to a Zenoh get: an ok sample, an error, or neither. -/
structure QueryReply where
  ok : Option Sample
  err : Option (List Char)

/-- Embedding of the reply loop body of _query_historical_data
(subscriber.py, lines 241-246): an ok reply goes through _process_sample
— the same function the live listener uses — and an error reply is only
logged. -/
def handle_history_reply {Msg : Type} (topic : List Char)
    (deser : List Nat → Except (List Char) Msg)
    (cb : Msg → Except (List Char) Unit) (r : QueryReply) : Option SampleOutcome :=
  match r.ok with
  | some s => some (process_sample topic deser cb s)
  | none => none

/- ===== C10 ===== -/

/-- C10: _process_sample catches every exception: a failing byte
extraction, an empty payload, a failing deserialization, and a raising
user callback each produce a logged error outcome — the user callback
exception in particular is swallowed per message and never escapes to
the Zenoh IO thread. -/
theorem process_sample_catches_all {Msg : Type} (topic : List Char)
    (deser : List Nat → Except (List Char) Msg)
    (cb : Msg → Except (List Char) Unit) (s : Sample) :
    (∀ e, extract_payload_bytes s = .error e →
      process_sample topic deser cb s = .loggedError (sample_log_msg topic e)) ∧
    (extract_payload_bytes s = .ok [] →
      process_sample topic deser cb s =
        .loggedError (sample_log_msg topic (toL "Received empty payload"))) ∧
    (∀ b e, extract_payload_bytes s = .ok b → b ≠ [] → deser b = .error e →
      process_sample topic deser cb s = .loggedError (sample_log_msg topic e)) ∧
    (∀ b m e, extract_payload_bytes s = .ok b → b ≠ [] → deser b = .ok m →
      cb m = .error e →
      process_sample topic deser cb s = .loggedError (sample_log_msg topic e)) := by
  refine ⟨fun e he => ?_, fun he => ?_, fun b e hb hne hd => ?_, fun b m e hb hne hd hc => ?_⟩
  · simp [process_sample, process_sample_body, he]
  · simp [process_sample, process_sample_body, he]
  · simp [process_sample, process_sample_body, hb, hne, hd]
  · simp [process_sample, process_sample_body, hb, hne, hd, hc]

/-- Witness for C10: a concrete sample whose payload decodes, with a
user callback that raises; the outcome is the logged error. -/
theorem process_sample_catches_all_witness :
    @process_sample Unit (toL "/chatter")
        (fun _ => .ok ()) (fun _ => .error (toL "boom"))
        ⟨some (.rawBytes [1, 2])⟩ =
      .loggedError (sample_log_msg (toL "/chatter") (toL "boom")) :=
  (process_sample_catches_all (toL "/chatter") _ _ _).2.2.2
    [1, 2] () (toL "boom") rfl (by decide) rfl rfl

/- ===== C7 ===== -/

/-- C7: the transient-local discovery of the subscriber uses exactly the
claimed liveliness pattern with a 2-second timeout, takes the component
at index 2 of a replying key expression as the zenoh_id, issues the data
get on exactly the claimed advanced-publisher selector under the data
key expression with a 2-second timeout, and feeds each ok reply through
the same _process_sample pipeline the live listener uses. -/
theorem transient_local_discovery_ok {Msg : Type} :
    (∀ (domain : Nat) (topic dds ty : List Char),
      discover_publishers_pattern domain topic dds ty =
        spec_discovery_pattern domain topic dds ty) ∧
    discovery_timeout_seconds = 2 ∧
    history_query_timeout_seconds = 2 ∧
    (∀ p0 p1 z rest : List Char, '/' ∉ p0 → '/' ∉ p1 → '/' ∉ z →
      extract_zenoh_id (p0 ++ '/' :: p1 ++ '/' :: z ++ '/' :: rest) = some z) ∧
    (∀ (domain maxSamples : Nat) (topic dds ty zid : List Char),
      history_selector (topic_keyexpr domain topic dds ty) zid maxSamples =
        topic_keyexpr domain topic dds ty ++ toL "/@adv/pub/" ++ zid ++
          toL "/**?_anyke;_max=" ++ natChars maxSamples) ∧
    (∀ (topic : List Char) (deser : List Nat → Except (List Char) Msg)
        (cb : Msg → Except (List Char) Unit) (s : Sample) (e : Option (List Char)),
      handle_history_reply topic deser cb ⟨some s, e⟩ =
        some (subscriber_listener topic deser cb s)) := by
  refine ⟨?_, rfl, rfl, ?_, ?_, ?_⟩
  · intro domain topic dds ty
    simp only [discover_publishers_pattern, spec_discovery_pattern, List.append_assoc]
    rfl
  · intro p0 p1 z rest h0 h1 hz
    have hsplit : splitChar '/' (p0 ++ '/' :: p1 ++ '/' :: z ++ '/' :: rest) =
        p0 :: p1 :: z :: splitChar '/' rest := by
      simp only [List.cons_append, List.append_assoc]
      rw [splitChar_append '/' p0 _ h0, splitChar_append '/' p1 _ h1,
        splitChar_append '/' z _ hz]
    unfold extract_zenoh_id
    rw [hsplit]
  · intro domain maxSamples topic dds ty zid
    simp [history_selector, List.append_assoc]
  · intro topic deser cb s e
    rfl

/-- Witness for C7: index-2 extraction on a concrete rmw_zenoh liveliness
token key expression. -/
theorem transient_local_discovery_ok_witness :
    extract_zenoh_id (toL "@ros2_lv" ++ '/' :: toL "0" ++ '/' ::
        toL "cafebabe" ++ '/' :: toL "1/2/MP/%/%/node/%chatter") =
      some (toL "cafebabe") :=
  (@transient_local_discovery_ok Unit).2.2.2.1
    (toL "@ros2_lv") (toL "0") (toL "cafebabe") (toL "1/2/MP/%/%/node/%chatter")
    (by decide) (by decide) (by decide)

/- ===== service server (C8) ===== -/

/-- The shapes a service query payload can take, following the branch
structure of _query_handler (src/zenoh_ros2_sdk/service_server.py, lines
283-293): a ZBytes, a bytes or bytearray, an object with to_bytes, or
anything else. -/
inductive QPayload where
  | zbytes (b : List Nat)
  | raw (b : List Nat)
  | withToBytes (b : List Nat)
  | other
deriving DecidableEq

/-- A Zenoh query as _query_handler sees it: an optional payload and an
optional attachment. -/
structure SrvQuery where
  payload : Option QPayload
  attachment : Option (List Nat)
deriving DecidableEq

/-- The payload byte extraction of _query_handler (service_server.py,
lines 283-293): an error value is the message of the reply_err the
handler sends for an unsupported payload type. -/
def srv_extract_payload (p : QPayload) : Except (List Char) (List Nat) :=
  match p with
  | .zbytes b => .ok b
  | .raw b => .ok b
  | .withToBytes b => .ok b
  | .other => .error (toL "Unknown payload type")

/-- Little-endian decoding of 8 bytes, Python struct.unpack of an
unsigned 8-byte little-endian value. -/
def le64_decode (bs : List Nat) : Nat := bs.foldr (fun b acc => acc * 256 + b) 0

/-- Embedding of _parse_attachment (service_server.py, lines 222-244):
none for a buffer shorter than 17 bytes or shorter than 17 plus the GID
length byte; otherwise the sequence number, the timestamp and the GID
slice. -/
def parse_attachment (a : List Nat) : Option (Nat × Nat × List Nat) :=
  if a.length < 17 then none
  else
    let seq := le64_decode (a.take 8)
    let ts := le64_decode ((a.drop 8).take 8)
    let gidLen := a.getD 16 0
    if a.length < 17 + gidLen then none
    else some (seq, ts, (a.drop 17).take gidLen)

/-- Embedding of _create_response_attachment (service_server.py, lines
246-257): the request sequence number, a fresh timestamp, the GID length
byte and the request GID. -/
def create_response_attachment (request_seq now_ns : Nat) (request_gid : List Nat) :
    List Nat :=
  le64 request_seq ++ le64 now_ns ++ [request_gid.length] ++ request_gid

/-- What the query handler does with a query: reply_err with an error
payload, or reply with a serialized response and a response
attachment. -/
inductive SrvOutcome where
  | replyErr (msg : List Char)
  | reply (payload : List Nat) (attachment : List Nat)
deriving DecidableEq

/-- Embedding of _query_handler (src/zenoh_ros2_sdk/service_server.py,
lines 259-377).  deserReq models store.deserialize_cdr of the request,
serResp models store.serialize_cdr of the response, cb is the user
callback (ok none models a callback that returns None; an error models a
raised exception).  The returned Bool records whether the user callback
was invoked.  The outer try/except turns a deserialization exception
into the reply_err with the handler-error text; the inner try/except
turns a callback or serialization exception into the reply_err with the
callback-error text; the handler itself always returns — no exception
propagates out of it. -/
def query_handler {Req Resp : Type}
    (deserReq : List Nat → Except (List Char) Req)
    (serResp : Resp → Except (List Char) (List Nat))
    (cb : Req → Except (List Char) (Option Resp))
    (now_ns : Nat) (q : SrvQuery) : SrvOutcome × Bool :=
  match q.payload with
  | none => (.replyErr (toL "Service request has no payload"), false)
  | some p =>
    match srv_extract_payload p with
    | .error e => (.replyErr e, false)
    | .ok cdr =>
      if cdr = [] then (.replyErr (toL "Service request payload is empty"), false)
      else
        match q.attachment with
        | none =>
          (.replyErr (toL "Service request attachment is None - attachment is required for service requests"), false)
        | some a =>
          match parse_attachment a with
          | none =>
            (.replyErr (toL "Service request attachment parsing returned None - invalid attachment format"), false)
          | some (seq, _ts, gid) =>
            match deserReq cdr with
            | .error e => (.replyErr (toL "Service handler error: " ++ e), false)
            | .ok req =>
              match cb req with
              | .error e => (.replyErr (toL "Service callback error: " ++ e), true)
              | .ok none => (.replyErr (toL "Service callback returned None"), true)
              | .ok (some resp) =>
                match serResp resp with
                | .error e => (.replyErr (toL "Service callback error: " ++ e), true)
                | .ok out =>
                  (.reply out (create_response_attachment seq now_ns gid), true)

/- ===== endpoint close (C9) ===== -/

/-- The three resources an endpoint undeclares on close: its node
liveliness token, its endpoint liveliness token (publisher, subscriber or
service token), and its data endpoint (publisher, subscriber or
queryable). -/
inductive Res where
  | nodeToken
  | endpointToken
  | dataEndpoint
deriving DecidableEq

/-- One pass over the close body's undeclare sequence: a resource that is
present (held and not None) is attempted; when its undeclare raises
(fails r), the exception is caught by the except clause and the
remaining undeclares are skipped.  Returns the list of attempted
undeclares. -/
def run_undeclares (fails present : Res → Bool) : List Res → List Res
  | [] => []
  | r :: rest =>
    if present r then
      if fails r then [r]
      else r :: run_undeclares fails present rest
    else run_undeclares fails present rest

/-- The per-endpoint close state: the _closed flag and which resources
are held. -/
structure CloseState where
  closed : Bool
  present : Res → Bool

/-- Embedding of close() of publisher.py (lines 175-204), subscriber.py
(lines 280-317) and service_server.py (lines 378-402): when _closed is
already set the call returns at once with no undeclares; otherwise the
undeclares run in the endpoint's order with every exception caught, and
_closed is set on every path (try, except AttributeError or
RuntimeError, and except Exception alike) — close never raises. -/
def endpoint_close (fails : Res → Bool) (order : List Res) (s : CloseState) :
    CloseState × List Res :=
  if s.closed then (s, [])
  else (⟨true, s.present⟩, run_undeclares fails s.present order)

/-- The undeclare order of ROS2Publisher.close (publisher.py, lines
185-194). -/
def publisher_close_order : List Res := [.nodeToken, .endpointToken, .dataEndpoint]

/-- The undeclare order of ROS2Subscriber.close (subscriber.py, lines
290-305): subscriber token first, then node token, then the data
subscriber. -/
def subscriber_close_order : List Res := [.endpointToken, .nodeToken, .dataEndpoint]

/-- The undeclare order of ROS2ServiceServer.close (service_server.py,
lines 387-395). -/
def service_server_close_order : List Res := [.nodeToken, .endpointToken, .dataEndpoint]

theorem run_undeclares_sublist (fails present : Res → Bool) (l : List Res) :
    List.Sublist (run_undeclares fails present l) l := by
  induction l with
  | nil => simp [run_undeclares]
  | cons r rest ih =>
    by_cases hp : present r
    · by_cases hf : fails r
      · simp only [run_undeclares, hp, hf, if_true]
        exact (List.nil_sublist rest).cons₂ r
      · simp only [run_undeclares, hp, hf, if_true, if_false]
        exact ih.cons₂ r
    · simp only [run_undeclares, hp, if_false]
      exact ih.cons r

/- ===== C8 ===== -/

/-- C8: the query handler replies with an error payload and returns
without invoking the user callback when the payload is missing,
unsupported or empty, when the attachment is missing, and when the
attachment does not parse; and a raising user callback is turned into a
reply_err carrying the callback-error text — the handler returns that
outcome instead of propagating the exception. -/
theorem query_handler_protocol {Req Resp : Type}
    (deserReq : List Nat → Except (List Char) Req)
    (serResp : Resp → Except (List Char) (List Nat))
    (cb : Req → Except (List Char) (Option Resp))
    (now_ns : Nat) (q : SrvQuery) :
    (q.payload = none →
      query_handler deserReq serResp cb now_ns q =
        (.replyErr (toL "Service request has no payload"), false)) ∧
    (∀ p e, q.payload = some p → srv_extract_payload p = .error e →
      query_handler deserReq serResp cb now_ns q = (.replyErr e, false)) ∧
    (∀ p, q.payload = some p → srv_extract_payload p = .ok [] →
      query_handler deserReq serResp cb now_ns q =
        (.replyErr (toL "Service request payload is empty"), false)) ∧
    (∀ p cdr, q.payload = some p → srv_extract_payload p = .ok cdr → cdr ≠ [] →
      q.attachment = none →
      query_handler deserReq serResp cb now_ns q =
        (.replyErr (toL "Service request attachment is None - attachment is required for service requests"), false)) ∧
    (∀ p cdr a, q.payload = some p → srv_extract_payload p = .ok cdr → cdr ≠ [] →
      q.attachment = some a → parse_attachment a = none →
      query_handler deserReq serResp cb now_ns q =
        (.replyErr (toL "Service request attachment parsing returned None - invalid attachment format"), false)) ∧
    (∀ p cdr a seq ts gid req e, q.payload = some p → srv_extract_payload p = .ok cdr →
      cdr ≠ [] → q.attachment = some a → parse_attachment a = some (seq, ts, gid) →
      deserReq cdr = .ok req → cb req = .error e →
      query_handler deserReq serResp cb now_ns q =
        (.replyErr (toL "Service callback error: " ++ e), true)) := by
  refine ⟨fun hp => ?_, fun p e hp he => ?_, fun p hp he => ?_,
    fun p cdr hp he hne ha => ?_, fun p cdr a hp he hne ha hpa => ?_,
    fun p cdr a seq ts gid req e hp he hne ha hpa hd hc => ?_⟩
  · simp [query_handler, hp]
  · simp [query_handler, hp, he]
  · simp [query_handler, hp, he]
  · simp [query_handler, hp, he, hne, ha]
  · simp [query_handler, hp, he, hne, ha, hpa]
  · simp [query_handler, hp, he, hne, ha, hpa, hd, hc]

/-- Witness for C8: a concrete query with no attachment gets the error
reply without the callback running, and a well-formed concrete query
whose callback raises gets the callback-error reply. -/
theorem query_handler_protocol_witness :
    @query_handler Unit Unit
        (fun _ => .ok ()) (fun _ => .ok [])
        (fun _ => .error (toL "boom")) 0
        ⟨some (.zbytes [1]), none⟩ =
      (.replyErr (toL "Service request attachment is None - attachment is required for service requests"), false) ∧
    @query_handler Unit Unit
        (fun _ => .ok ()) (fun _ => .ok [])
        (fun _ => .error (toL "boom")) 0
        ⟨some (.zbytes [1]), some (create_attachment 3 4 (List.replicate 16 0))⟩ =
      (.replyErr (toL "Service callback error: " ++ toL "boom"), true) :=
  ⟨(query_handler_protocol _ _ _ 0 _).2.2.2.1 (.zbytes [1]) [1]
      rfl rfl (by decide) rfl,
   (query_handler_protocol _ _ _ 0 _).2.2.2.2.2 (.zbytes [1]) [1]
      (create_attachment 3 4 (List.replicate 16 0)) 3 4 (List.replicate 16 0) () (toL "boom")
      rfl rfl (by decide) rfl (by decide) rfl rfl⟩

/- ===== C9 ===== -/

/-- C9: for each of the three endpoints, a close call on a closed
endpoint is a no-op (no undeclares, state unchanged), the first close
marks the endpoint closed whatever undeclare failures occur (the
exceptions are swallowed), and across both calls every token and the
data endpoint is undeclared at most once; close always returns an
outcome, never an exception. -/
theorem endpoint_close_idempotent :
    (∀ (fails present : Res → Bool) (order : List Res),
      (endpoint_close fails order ⟨false, present⟩).1.closed = true ∧
      endpoint_close fails order (endpoint_close fails order ⟨false, present⟩).1 =
        ((endpoint_close fails order ⟨false, present⟩).1, []) ∧
      (order.Nodup → ∀ r : Res,
        ((endpoint_close fails order ⟨false, present⟩).2 ++
          (endpoint_close fails order (endpoint_close fails order ⟨false, present⟩).1).2).count r ≤ 1)) ∧
    publisher_close_order.Nodup ∧
    subscriber_close_order.Nodup ∧
    service_server_close_order.Nodup := by
  refine ⟨fun fails present order => ⟨rfl, rfl, fun hnd r => ?_⟩,
    by decide, by decide, by decide⟩
  have h1 : (endpoint_close fails order ⟨false, present⟩).2 =
      run_undeclares fails present order := rfl
  have h2 : (endpoint_close fails order (endpoint_close fails order ⟨false, present⟩).1).2 = [] := rfl
  rw [h1, h2, List.append_nil]
  have hsub := run_undeclares_sublist fails present order
  calc (run_undeclares fails present order).count r
      ≤ order.count r := hsub.count_le r
    _ ≤ 1 := List.nodup_iff_count_le_one.mp hnd r

/-- Witness for C9: the publisher order with a failing endpoint-token
undeclare; each resource is undeclared at most once. -/
theorem endpoint_close_idempotent_witness :
    ((endpoint_close (fun r => r = Res.endpointToken) publisher_close_order
        ⟨false, fun _ => true⟩).2 ++
      (endpoint_close (fun r => r = Res.endpointToken) publisher_close_order
        (endpoint_close (fun r => r = Res.endpointToken) publisher_close_order
          ⟨false, fun _ => true⟩).1).2).count Res.dataEndpoint ≤ 1 :=
  (endpoint_close_idempotent.1 (fun r => r = Res.endpointToken) (fun _ => true)
    publisher_close_order).2.2 (by decide) Res.dataEndpoint

end ZenohRos2
